import Mathlib

/-!
Verification development for the med_web task orchestration engine
(src/modules/tasks.py, src/modules/q_generation_func.py).

The Python source is shallowly embedded: each relevant function becomes a
Lean definition over explicit state; wall-clock times are rationals;
Python exceptions become explicit error values.  Claims C1..C10 of the
specification are then settled against these definitions.
-/

/-! ## Rate limiter (src/modules/tasks.py lines 268-281)

`RATE_LIMIT_DELAY = 2.5`; `rate_limited_delay()` reads the wall clock,
computes the elapsed time since the shared `last_api_call_time`, sleeps for
the remaining difference when the elapsed time is below the delay, and then
stores the wall-clock time observed after the sleep.  The lock serializes
the whole body, so the sequential model below is faithful; the state is the
shared `last_api_call_time` and `t` is the wall-clock value read on entry.
The returned pair is (sleep duration, updated `last_api_call_time`, i.e.
the wall-clock time right after the sleep). -/

def RATE_LIMIT_DELAY : ℚ := 5 / 2

def rate_limited_delay (last_api_call_time t : ℚ) : ℚ × ℚ :=
  let time_since_last_call := t - last_api_call_time
  if time_since_last_call < RATE_LIMIT_DELAY then
    let sleep_time := RATE_LIMIT_DELAY - time_since_last_call
    (sleep_time, t + sleep_time)
  else
    (0, t)

/-- Successive values taken by `last_api_call_time` when workers enter
`rate_limited_delay` at the given wall-clock arrival instants. -/
def throttleTimes (last_api_call_time : ℚ) : List ℚ → List ℚ
  | [] => []
  | t :: ts =>
    let nl := (rate_limited_delay last_api_call_time t).2
    nl :: throttleTimes nl ts

lemma rate_limited_delay_gap (last t : ℚ) :
    last + RATE_LIMIT_DELAY ≤ (rate_limited_delay last t).2 := by
  unfold rate_limited_delay
  dsimp only
  split
  · rename_i h
    have : t + (RATE_LIMIT_DELAY - (t - last)) = last + RATE_LIMIT_DELAY := by ring
    rw [this]
  · rename_i h
    have := not_lt.mp h
    linarith

lemma throttleTimes_chain (last : ℚ) (ts : List ℚ) :
    List.Chain' (fun a b => a + RATE_LIMIT_DELAY ≤ b) (last :: throttleTimes last ts) := by
  induction ts generalizing last with
  | nil => simp [throttleTimes]
  | cons t ts ih =>
    rw [throttleTimes]
    exact List.Chain'.cons (rate_limited_delay_gap last t) (ih _)

/-! ## Deduplication (src/modules/q_generation_func.py lines 24-36)

`deduplicate_mcqs` walks the blocks in order, keeps a `seen` set of exact
question texts, keeps only questions whose text has not been seen, drops
blocks whose kept question list is empty, and rebuilds each surviving block
as a dict with keys "temat" (Python `block.get("topic") or block.get("temat")`,
so an empty or missing topic falls through to temat) and "questions". -/

structure MCQ where
  question : String
  optionA : String
  optionB : String
  optionC : String
  optionD : String
  answer : String
  explanation : String
deriving DecidableEq

structure MCQBlock where
  topic : Option String
  temat : Option String
  questions : List MCQ
deriving DecidableEq

structure OutBlock where
  temat : Option String
  questions : List MCQ
deriving DecidableEq

/-- Python truthiness of `block.get("topic") or block.get("temat")`:
a missing key or empty string falls through to the second operand. -/
def pyOr (a b : Option String) : Option String :=
  match a with
  | some s => if s = "" then b else some s
  | none => b

/-- The inner loop of `deduplicate_mcqs` over one block's question list:
returns the kept questions and the updated `seen` set (modelled as a list,
only membership is ever consulted). -/
def dedupQuestions (seen : List String) : List MCQ → List MCQ × List String
  | [] => ([], seen)
  | q :: qs =>
    if q.question ∈ seen then dedupQuestions seen qs
    else
      let r := dedupQuestions (q.question :: seen) qs
      (q :: r.1, r.2)

def dedupBlocks (seen : List String) : List MCQBlock → List OutBlock
  | [] => []
  | b :: bs =>
    let r := dedupQuestions seen b.questions
    let rest := dedupBlocks r.2 bs
    if r.1 = [] then rest
    else { temat := pyOr b.topic b.temat, questions := r.1 } :: rest

def deduplicate_mcqs (mcq_list : List MCQBlock) : List OutBlock :=
  dedupBlocks [] mcq_list

/-- Specification-side definition, following the spec's words: among all
items sharing the same exact question text keep only the first occurrence,
preserving the relative order of kept items and leaving items with distinct
texts untouched. -/
def keepFirst : List MCQ → List MCQ
  | [] => []
  | q :: qs => q :: keepFirst (qs.filter (fun r => r.question ≠ q.question))
termination_by l => l.length
decreasing_by
  simp only [gt_iff_lt]
  exact Nat.lt_succ_of_le (List.length_filter_le _ _)

/-- Accumulator form of `keepFirst`, used to relate the spec-side
definition to the seen-set threading of the source. -/
def keepFirstFrom (seen : List String) : List MCQ → List MCQ
  | [] => []
  | q :: qs =>
    if q.question ∈ seen then keepFirstFrom seen qs
    else q :: keepFirstFrom (q.question :: seen) qs

/-- The `seen` set after scanning a question list (identical threading in
the source loop and in `keepFirstFrom`). -/
def seenAfter (seen : List String) : List MCQ → List String
  | [] => seen
  | q :: qs =>
    if q.question ∈ seen then seenAfter seen qs
    else seenAfter (q.question :: seen) qs

lemma dedupQuestions_fst (seen : List String) (qs : List MCQ) :
    (dedupQuestions seen qs).1 = keepFirstFrom seen qs := by
  induction qs generalizing seen with
  | nil => rfl
  | cons q qs ih =>
    rw [dedupQuestions, keepFirstFrom]
    split
    · exact ih seen
    · simp [ih]

lemma dedupQuestions_snd (seen : List String) (qs : List MCQ) :
    (dedupQuestions seen qs).2 = seenAfter seen qs := by
  induction qs generalizing seen with
  | nil => rfl
  | cons q qs ih =>
    rw [dedupQuestions, seenAfter]
    split
    · exact ih seen
    · simp [ih]

lemma keepFirstFrom_append (seen : List String) (l₁ l₂ : List MCQ) :
    keepFirstFrom seen (l₁ ++ l₂) =
      keepFirstFrom seen l₁ ++ keepFirstFrom (seenAfter seen l₁) l₂ := by
  induction l₁ generalizing seen with
  | nil => rfl
  | cons q qs ih =>
    rw [List.cons_append, keepFirstFrom, keepFirstFrom, seenAfter]
    split
    · exact ih seen
    · simp [ih]

lemma keepFirstFrom_eq_keepFirst_filter (seen : List String) (qs : List MCQ) :
    keepFirstFrom seen qs = keepFirst (qs.filter (fun r => r.question ∉ seen)) := by
  induction qs generalizing seen with
  | nil => simp [keepFirstFrom, keepFirst]
  | cons q qs ih =>
    rw [keepFirstFrom, List.filter_cons]
    by_cases hq : q.question ∈ seen
    · have hd : (decide (q.question ∉ seen)) = false := by simp [hq]
      rw [if_pos hq, hd]
      simp only [Bool.false_eq_true, if_false]
      exact ih seen
    · have hd : (decide (q.question ∉ seen)) = true := by simp [hq]
      rw [if_neg hq, hd, if_pos rfl, keepFirst, ih]
      congr 1
      rw [List.filter_filter]
      congr 1
      apply List.filter_congr
      intro r _
      by_cases h1 : r.question = q.question
      · simp [h1, hq]
      · by_cases h2 : r.question ∈ seen <;> simp [h1, h2]

lemma dedupBlocks_join (seen : List String) (bs : List MCQBlock) :
    ((dedupBlocks seen bs).map OutBlock.questions).flatten =
      keepFirstFrom seen ((bs.map MCQBlock.questions).flatten) := by
  induction bs generalizing seen with
  | nil => rfl
  | cons b bs ih =>
    rw [dedupBlocks]
    simp only [List.map_cons, List.flatten_cons]
    rw [keepFirstFrom_append, ← dedupQuestions_snd, ← dedupQuestions_fst]
    split
    · rename_i h
      rw [ih, h]
      rfl
    · simp only [List.map_cons, List.flatten_cons, ih]

/-! ## Fan-out explanation task (src/modules/tasks.py lines 283-462)

`start_explanation_task` creates the record `status="queued"`, `progress=0`,
`total=0`, `results=[]`, `error=None` and registers the task in
`running_tasks`.  `process_question_explanation` then sets `status` to
"processing", resolves the subject (raising "Subject not found"), the topic
when `generate_all` is false (raising "Topic not found"), the candidate
question ids (raising "No questions found" when the id query returns no
rows), and fetches the questions; when that fetch is empty it REPLACES the
record with a completed no-op record and returns WITHOUT removing the
`running_tasks` entry (lines 362-371).  Otherwise it stores `total`, runs
the pool, and for each completed item appends a success entry (setting
`status="processing"` again) or a per-item error entry; before handling
each completion it polls the cancellation flag and, when set, marks the
task cancelled and unregisters it.  After the loop the task is marked
"completed" and unregistered.  Any exception escaping to the outer handler
replaces the whole record with a two-key failed (or cancelled) record and
unregisters the task.

The embedding exposes the whole execution as the list of store states
`fanoutStates`: each element is the task's record paired with a Boolean
saying whether the task is still registered in `running_tasks`. -/

structure Question where
  questionId : ℕ
  question : String
deriving DecidableEq

inductive Outcome where
  | ok (explanation : String)
  | err (msg : String)
deriving DecidableEq

inductive Entry where
  | result (index : ℕ) (questionId : ℕ) (explanation : String)
  | error (index : ℕ) (questionId : ℕ) (msg : String)
deriving DecidableEq

structure Record where
  status : String
  progress : ℕ
  total : ℕ
  results : List Entry
  error : Option String
deriving DecidableEq

instance : Inhabited Record :=
  ⟨{ status := "", progress := 0, total := 0, results := [], error := none }⟩

/-- The entry appended for one completed pool item `(idx, q)`: the result
dict built by `process_single_question` on success, or the error dict of
lines 428-432 when the worker raised. -/
def entryOf (outcome : ℕ × Question → Outcome) (p : ℕ × Question) : Entry :=
  match outcome p with
  | .ok e => .result p.1 p.2.questionId e
  | .err m => .error p.1 p.2.questionId m

/-- Reading of the per-task cancellation flag at successive checkpoints:
`none` means the flag is never set; `some c` means the flag reads true from
checkpoint number `c` on (the flag is write-once true). -/
def cancelHit : Option ℕ → ℕ → Bool
  | none, _ => false
  | some c, k => decide (c ≤ k)

/-- States produced by the `as_completed` loop (lines 398-447), starting
from record `cur` at checkpoint counter `k`, over the remaining completed
items in completion order; followed by the terminal transition.  The
Boolean is membership in `running_tasks` after the state. -/
def loopStates (outcome : ℕ × Question → Outcome) (cancelFrom : Option ℕ) :
    ℕ → Record → List (ℕ × Question) → List (Record × Bool)
  | _, cur, [] => [({ cur with status := "completed" }, false)]
  | k, cur, p :: rest =>
    if cancelHit cancelFrom k then
      [({ cur with status := "cancelled", error := some "Task was cancelled." }, false)]
    else
      let e := entryOf outcome p
      let resultsNew := cur.results ++ [e]
      let cur' :=
        match outcome p with
        | .ok _ => { cur with results := resultsNew, progress := resultsNew.length,
                              status := "processing" }
        | .err _ => { cur with results := resultsNew, progress := resultsNew.length }
      (cur', true) :: loopStates outcome cancelFrom (k + 1) cur' rest

/-- Environment of one fan-out task run: the collaborator responses and
the scheduling choices the thread pool makes. `sched` is the submitted
items `enumerate(questions, start=1)` in completion order. -/
structure FanoutEnv where
  subjectFound : Bool
  generate_all : Bool
  topicFound : Bool
  questionIds : List ℕ
  questions : List Question
  sched : List (ℕ × Question)
  outcome : ℕ × Question → Outcome
  cancelFrom : Option ℕ

def initRecord : Record :=
  { status := "queued", progress := 0, total := 0, results := [], error := none }

/-- Record written by the outer exception handler (lines 457-461): the
record is replaced whole, so every other field takes its absent-key
default. -/
def failRec (m : String) : Record :=
  { status := "failed", progress := 0, total := 0, results := [], error := some m }

/-- All states of the task's record (paired with `running_tasks`
membership) over one run of `process_question_explanation`. -/
def fanoutStates (env : FanoutEnv) : List (Record × Bool) :=
  let r1 := { initRecord with status := "processing" }
  (initRecord, true) :: (r1, true) ::
  (if env.subjectFound = false then [(failRec "Subject not found", false)]
   else if env.generate_all = false ∧ env.topicFound = false then
     [(failRec "Topic not found", false)]
   else if env.questionIds = [] then [(failRec "No questions found", false)]
   else if env.questions = [] then
     [({ status := "completed", progress := 0, total := 0, results := [],
         error := some "All questions already explained." }, true)]
   else
     let r2 := { r1 with total := env.questions.length }
     (r2, true) :: loopStates env.outcome env.cancelFrom 0 r2 env.sched)

/-- Final store state of the run. -/
def fanoutFinal (env : FanoutEnv) : Record × Bool :=
  ((fanoutStates env).getLast?).getD (initRecord, true)

/-- `cancel_task` (src/modules/tasks.py lines 118-125) restricted to one
task: when the task is registered in `running_tasks` it sets the
cancellation flag, overwrites `status` with "cancelling" and `error` with
the request message, and returns `true`; otherwise it leaves the record
alone and returns `false`. -/
def cancel_task (rec : Record) (running : Bool) : (Record × Bool) × Bool :=
  if running then
    (({ rec with status := "cancelling",
                 error := some "Cancellation requested by user." }, running), true)
  else ((rec, running), false)

lemma loopStates_ne_nil (outcome : ℕ × Question → Outcome) (cf : Option ℕ)
    (k : ℕ) (cur : Record) (l : List (ℕ × Question)) :
    loopStates outcome cf k cur l ≠ [] := by
  cases l with
  | nil => simp [loopStates]
  | cons p rest =>
    rw [loopStates]
    split <;> simp

lemma getLast?_cons_of_ne_nil {α : Type} (a : α) {l : List α} (h : l ≠ []) :
    (a :: l).getLast? = l.getLast? := by
  obtain ⟨b, t, rfl⟩ := List.exists_cons_of_ne_nil h
  rw [List.getLast?_cons_cons]

lemma loopStates_none_last (outcome : ℕ × Question → Outcome) (k : ℕ)
    (cur : Record) (l : List (ℕ × Question))
    (hp : cur.progress = cur.results.length) :
    (loopStates outcome none k cur l).getLast? = some
      ({ status := "completed",
         progress := cur.results.length + l.length,
         total := cur.total,
         results := cur.results ++ l.map (entryOf outcome),
         error := cur.error }, false) := by
  induction l generalizing cur k with
  | nil =>
    simp [loopStates, hp]
  | cons p rest ih =>
    rw [loopStates]
    have hc : cancelHit none k = false := rfl
    rw [hc]
    simp only [Bool.false_eq_true, if_false]
    cases houtcome : outcome p with
    | ok e =>
      dsimp only
      rw [getLast?_cons_of_ne_nil _ (loopStates_ne_nil outcome none (k + 1) _ rest),
        ih (k + 1) _ rfl]
      simp only [Option.some.injEq, Prod.mk.injEq, Record.mk.injEq, List.map_cons,
        List.length_append, List.length_cons, List.length_map, List.length_nil,
        List.append_assoc, List.cons_append, List.nil_append, and_true, true_and]
      omega
    | err m =>
      dsimp only
      rw [getLast?_cons_of_ne_nil _ (loopStates_ne_nil outcome none (k + 1) _ rest),
        ih (k + 1) _ rfl]
      simp only [Option.some.injEq, Prod.mk.injEq, Record.mk.injEq, List.map_cons,
        List.length_append, List.length_cons, List.length_map, List.length_nil,
        List.append_assoc, List.cons_append, List.nil_append, and_true, true_and]
      omega

lemma loopStates_none_mem_completed (outcome : ℕ × Question → Outcome) (k : ℕ)
    (cur : Record) (l : List (ℕ × Question))
    (hs : cur.status = "processing") :
    ∀ s ∈ loopStates outcome none k cur l, s.1.status = "completed" →
      s.1.results = cur.results ++ l.map (entryOf outcome) := by
  induction l generalizing cur k with
  | nil =>
    intro s hmem _
    simp only [loopStates, List.mem_singleton] at hmem
    subst hmem
    simp
  | cons p rest ih =>
    intro s hmem hcomp
    rw [loopStates] at hmem
    have hc : cancelHit none k = false := rfl
    rw [hc] at hmem
    simp only [Bool.false_eq_true, if_false] at hmem
    cases houtcome : outcome p with
    | ok e =>
      rw [houtcome] at hmem
      dsimp only at hmem
      rcases List.mem_cons.mp hmem with hhead | htail
      · exfalso
        rw [hhead] at hcomp
        simp at hcomp
      · have := ih (k + 1)
          { cur with results := cur.results ++ [entryOf outcome p],
                     progress := (cur.results ++ [entryOf outcome p]).length,
                     status := "processing" } rfl s htail hcomp
        simpa [List.append_assoc] using this
    | err m =>
      rw [houtcome] at hmem
      dsimp only at hmem
      rcases List.mem_cons.mp hmem with hhead | htail
      · exfalso
        rw [hhead] at hcomp
        simp [hs] at hcomp
      · have := ih (k + 1)
          { cur with results := cur.results ++ [entryOf outcome p],
                     progress := (cur.results ++ [entryOf outcome p]).length } hs s htail hcomp
        simpa [List.append_assoc] using this

/-- Results are only ever extended: `b`'s results equal `a`'s results plus
a (possibly empty) suffix. -/
def resultsExtend (a b : Record × Bool) : Prop :=
  ∃ t, b.1.results = a.1.results ++ t

lemma resultsExtend_trans : Transitive resultsExtend := by
  rintro a b c ⟨t₁, h₁⟩ ⟨t₂, h₂⟩
  exact ⟨t₁ ++ t₂, by rw [h₂, h₁, List.append_assoc]⟩

instance : IsTrans (Record × Bool) resultsExtend := ⟨resultsExtend_trans⟩

lemma loopStates_chain (outcome : ℕ × Question → Outcome) (cf : Option ℕ)
    (k : ℕ) (cur : Record) (l : List (ℕ × Question)) (rb : Bool) :
    List.Chain' resultsExtend ((cur, rb) :: loopStates outcome cf k cur l) := by
  induction l generalizing cur k rb with
  | nil =>
    simp only [loopStates]
    exact List.chain'_cons.mpr ⟨⟨[], by simp⟩, List.chain'_singleton _⟩
  | cons p rest ih =>
    rw [loopStates]
    split
    · exact List.chain'_cons.mpr ⟨⟨[], by simp⟩, List.chain'_singleton _⟩
    · cases houtcome : outcome p with
      | ok e =>
        dsimp only
        exact List.chain'_cons.mpr ⟨⟨[entryOf outcome p], rfl⟩, ih (k + 1) _ true⟩
      | err m =>
        dsimp only
        exact List.chain'_cons.mpr ⟨⟨[entryOf outcome p], rfl⟩, ih (k + 1) _ true⟩

lemma fanoutStates_chain (env : FanoutEnv) :
    List.Chain' resultsExtend (fanoutStates env) := by
  rw [fanoutStates]
  dsimp only
  apply List.chain'_cons.mpr
  refine ⟨⟨[], rfl⟩, ?_⟩
  split
  · exact List.chain'_cons.mpr ⟨⟨[], rfl⟩, List.chain'_singleton _⟩
  · split
    · exact List.chain'_cons.mpr ⟨⟨[], rfl⟩, List.chain'_singleton _⟩
    · split
      · exact List.chain'_cons.mpr ⟨⟨[], rfl⟩, List.chain'_singleton _⟩
      · split
        · exact List.chain'_cons.mpr ⟨⟨[], rfl⟩, List.chain'_singleton _⟩
        · exact List.chain'_cons.mpr ⟨⟨[], rfl⟩, loopStates_chain _ _ 0 _ _ true⟩

lemma fanoutStates_ne_nil (env : FanoutEnv) : fanoutStates env ≠ [] := by
  rw [fanoutStates]
  exact List.cons_ne_nil _ _

lemma getD_eq_get {α : Type} (l : List α) (d : α) {n : ℕ} (h : n < l.length) :
    l.getD n d = l.get ⟨n, h⟩ := by
  rw [List.getD_eq_getElem?_getD, List.getElem?_eq_getElem h]
  rfl

/-- Along any state list that is a chain for `resultsExtend`, the results
at an earlier position are a prefix of the results at any later one. -/
lemma chain_resultsExtend_getD (l : List (Record × Bool))
    (hchain : List.Chain' resultsExtend l) (i j : ℕ) (hij : i ≤ j)
    (hj : j < l.length) :
    ∃ t, (l.getD j (initRecord, true)).1.results
        = (l.getD i (initRecord, true)).1.results ++ t := by
  have hi : i < l.length := Nat.lt_of_le_of_lt hij hj
  rw [getD_eq_get _ _ hi, getD_eq_get _ _ hj]
  rcases eq_or_lt_of_le hij with rfl | hlt
  · exact ⟨[], (List.append_nil _).symm⟩
  · have hpw := List.chain'_iff_pairwise.mp hchain
    exact List.pairwise_iff_get.mp hpw ⟨i, hi⟩ ⟨j, hj⟩ hlt

def envC7 : FanoutEnv :=
  { subjectFound := true, generate_all := true, topicFound := true,
    questionIds := [1], questions := [⟨1, "q"⟩], sched := [(1, ⟨1, "q"⟩)],
    outcome := fun _ => Outcome.ok "expl", cancelFrom := none }

/-- The fan-out environment of a run whose subject/topic/id lookups all
succeed and that is never cancelled. -/
def fanoutEnvOf (questions : List Question) (sched : List (ℕ × Question))
    (outcome : ℕ × Question → Outcome) : FanoutEnv :=
  { subjectFound := true, generate_all := true, topicFound := true,
    questionIds := [1], questions := questions, sched := sched,
    outcome := outcome, cancelFrom := none }

/-- C3: for a fan-out task with `total = n > 0` that is never cancelled,
a per-item failure is recorded as an error entry at that item's index and
the remaining items are still processed; the task reaches `completed` iff
exactly `n` entries have been appended to `results`, regardless of
completion order (`sched` is any permutation of the submitted items). -/
theorem C3_fanout_completion (questions : List Question)
    (sched : List (ℕ × Question)) (outcome : ℕ × Question → Outcome)
    (hq : questions ≠ [])
    (hperm : sched.Perm (List.enumFrom 1 questions)) :
    (fanoutFinal (fanoutEnvOf questions sched outcome)).1.status = "completed" ∧
    (fanoutFinal (fanoutEnvOf questions sched outcome)).1.results.length
      = questions.length ∧
    (fanoutFinal (fanoutEnvOf questions sched outcome)).1.results
      = sched.map (entryOf outcome) ∧
    (∀ s ∈ fanoutStates (fanoutEnvOf questions sched outcome),
      s.1.status = "completed" → s.1.results.length = questions.length) ∧
    (∀ p ∈ sched, ∀ m, outcome p = Outcome.err m →
      Entry.error p.1 p.2.questionId m
        ∈ (fanoutFinal (fanoutEnvOf questions sched outcome)).1.results) := by
  have hlen : sched.length = questions.length := by
    rw [hperm.length_eq, List.enumFrom_length]
  have hstates : fanoutStates (fanoutEnvOf questions sched outcome) =
      (initRecord, true) ::
      ({ initRecord with status := "processing" }, true) ::
      ({ status := "processing", progress := 0, total := questions.length,
         results := [], error := none }, true) ::
      loopStates outcome none 0
        { status := "processing", progress := 0, total := questions.length,
          results := [], error := none } sched := by
    rw [fanoutStates]
    simp [fanoutEnvOf, hq, initRecord]
  have hfinal : fanoutFinal (fanoutEnvOf questions sched outcome) =
      ({ status := "completed", progress := sched.length,
         total := questions.length,
         results := sched.map (entryOf outcome), error := none }, false) := by
    rw [fanoutFinal, hstates]
    rw [getLast?_cons_of_ne_nil _ (by simp),
        getLast?_cons_of_ne_nil _ (by simp),
        getLast?_cons_of_ne_nil _ (loopStates_ne_nil outcome none 0 _ sched),
        loopStates_none_last outcome 0 _ sched rfl]
    simp
  refine ⟨?_, ?_, ?_, ?_, ?_⟩
  · rw [hfinal]
  · rw [hfinal]
    simpa using hlen
  · rw [hfinal]
  · intro s hmem hcomp
    rw [hstates] at hmem
    rcases List.mem_cons.mp hmem with rfl | hmem
    · simp [initRecord] at hcomp
    rcases List.mem_cons.mp hmem with rfl | hmem
    · simp [initRecord] at hcomp
    rcases List.mem_cons.mp hmem with rfl | hmem
    · simp at hcomp
    · have := loopStates_none_mem_completed outcome 0 _ sched rfl s hmem hcomp
      rw [this]
      simpa using hlen
  · intro p hp m hm
    rw [hfinal]
    dsimp only
    have : Entry.error p.1 p.2.questionId m = entryOf outcome p := by
      rw [entryOf, hm]
    rw [this]
    exact List.mem_map_of_mem _ hp

def questionsC3 : List Question := [⟨1, "q1"⟩, ⟨2, "q2"⟩]

def schedC3 : List (ℕ × Question) := [(2, ⟨2, "q2"⟩), (1, ⟨1, "q1"⟩)]

def outcomeC3 : ℕ × Question → Outcome :=
  fun p => if p.1 = 1 then Outcome.ok "expl" else Outcome.err "boom"

theorem C3_fanout_completion_witness :
    (questionsC3 ≠ [] ∧ schedC3.Perm (List.enumFrom 1 questionsC3)) ∧
    ((fanoutFinal (fanoutEnvOf questionsC3 schedC3 outcomeC3)).1.status = "completed" ∧
     (fanoutFinal (fanoutEnvOf questionsC3 schedC3 outcomeC3)).1.results.length
       = questionsC3.length ∧
     (fanoutFinal (fanoutEnvOf questionsC3 schedC3 outcomeC3)).1.results
       = schedC3.map (entryOf outcomeC3) ∧
     (∀ s ∈ fanoutStates (fanoutEnvOf questionsC3 schedC3 outcomeC3),
       s.1.status = "completed" → s.1.results.length = questionsC3.length) ∧
     (∀ p ∈ schedC3, ∀ m, outcomeC3 p = Outcome.err m →
       Entry.error p.1 p.2.questionId m
         ∈ (fanoutFinal (fanoutEnvOf questionsC3 schedC3 outcomeC3)).1.results)) :=
  ⟨⟨by decide, by decide⟩,
    C3_fanout_completion questionsC3 schedC3 outcomeC3 (by decide) (by decide)⟩

/-! ## C1: stale running-tasks registration after a terminal transition

The early-return branch of `process_question_explanation` (lines 362-371)
writes the terminal record `status="completed"` but returns without
`running_tasks.pop`, so `cancel_task` (line 119) still finds the task in
`running_tasks` and overwrites the terminal status with "cancelling"
(line 122). -/

def envC1 : FanoutEnv :=
  { subjectFound := true, generate_all := true, topicFound := true,
    questionIds := [7], questions := [], sched := [],
    outcome := fun _ => Outcome.err "", cancelFrom := none }

/-- C1 (code bug): after the fan-out run of `envC1` ends in the terminal
status "completed" via the all-questions-already-explained branch, the task
is still registered in `running_tasks`, and a subsequent `cancel_task`
succeeds and changes the stored status to "cancelling" — a terminal status
is read back differently after a later operation, contradicting the
claimed invariant. -/
theorem C1_terminal_status_overwritten :
    (fanoutFinal envC1).1.status = "completed" ∧
    (fanoutFinal envC1).2 = true ∧
    (cancel_task (fanoutFinal envC1).1 (fanoutFinal envC1).2).2 = true ∧
    (cancel_task (fanoutFinal envC1).1 (fanoutFinal envC1).2).1.1.status
      = "cancelling" ∧
    ¬ (cancel_task (fanoutFinal envC1).1 (fanoutFinal envC1).2).1.1.status
      = "completed" := by
  decide

/-! ## C4: tasks with zero qualifying work items -/

def envC4 : FanoutEnv :=
  { subjectFound := true, generate_all := true, topicFound := true,
    questionIds := [], questions := [], sched := [],
    outcome := fun _ => Outcome.err "", cancelFrom := none }

/-- C4 counterexample: a fan-out task whose qualifying work-item set is
empty because the candidate-id query returned no rows reaches the terminal
status "failed" (error "No questions found"), not "completed" — refuting
the claim that every zero-item task transitions to `completed`. -/
theorem C4_zero_items_counterexample :
    (fanoutFinal envC4).1.status = "failed" ∧
    (fanoutFinal envC4).1.error = some "No questions found" ∧
    ¬ (fanoutFinal envC4).1.status = "completed" := by
  decide

/-- C4 (amended): a fan-out task whose candidate-id query returns no rows
reaches the terminal status "failed" with error "No questions found"; only
a task whose candidate ids exist but whose fetched question set is empty
reaches the terminal status "completed" (through the transient
"processing" status) with `error` set to the explanatory no-op message. -/
theorem C4_zero_items_amended (env : FanoutEnv)
    (hs : env.subjectFound = true)
    (ht : env.generate_all = true ∨ env.topicFound = true) :
    (env.questionIds = [] →
      (fanoutFinal env).1.status = "failed" ∧
      (fanoutFinal env).1.error = some "No questions found") ∧
    (env.questionIds ≠ [] → env.questions = [] →
      (fanoutFinal env).1.status = "completed" ∧
      (fanoutFinal env).1.progress = 0 ∧
      (fanoutFinal env).1.total = 0 ∧
      (fanoutFinal env).1.results = [] ∧
      (fanoutFinal env).1.error = some "All questions already explained.") := by
  constructor
  · intro hids
    have hstates : fanoutStates env =
        [(initRecord, true), ({ initRecord with status := "processing" }, true),
         (failRec "No questions found", false)] := by
      rw [fanoutStates]
      rcases ht with h | h <;> simp [hs, h, hids]
    rw [fanoutFinal, hstates]
    exact ⟨rfl, rfl⟩
  · intro hids hqs
    have hstates : fanoutStates env =
        [(initRecord, true), ({ initRecord with status := "processing" }, true),
         ({ status := "completed", progress := 0, total := 0, results := [],
            error := some "All questions already explained." }, true)] := by
      rw [fanoutStates]
      rcases ht with h | h <;> simp [hs, h, hids, hqs]
    rw [fanoutFinal, hstates]
    exact ⟨rfl, rfl, rfl, rfl, rfl⟩

def envC4noop : FanoutEnv :=
  { subjectFound := true, generate_all := true, topicFound := true,
    questionIds := [3], questions := [], sched := [],
    outcome := fun _ => Outcome.err "", cancelFrom := none }

theorem C4_zero_items_amended_witness :
    ((envC4noop.questionIds = [] →
      (fanoutFinal envC4noop).1.status = "failed" ∧
      (fanoutFinal envC4noop).1.error = some "No questions found") ∧
    (envC4noop.questionIds ≠ [] → envC4noop.questions = [] →
      (fanoutFinal envC4noop).1.status = "completed" ∧
      (fanoutFinal envC4noop).1.progress = 0 ∧
      (fanoutFinal envC4noop).1.total = 0 ∧
      (fanoutFinal envC4noop).1.results = [] ∧
      (fanoutFinal envC4noop).1.error
        = some "All questions already explained.")) :=
  C4_zero_items_amended envC4noop rfl (Or.inl rfl)

/-- C9: for every list of generated item blocks, deduplication keeps, among
all items sharing the same exact question text, only the first occurrence
in processing order, preserves the relative order of the kept items, and
leaves items with distinct question texts untouched: the concatenated
question sequence of the deduplicated blocks equals the first-occurrence
filter (spec-side `keepFirst`) of the concatenated input question
sequence. -/
theorem C9_deduplicate_first_occurrence (mcq_list : List MCQBlock) :
    ((deduplicate_mcqs mcq_list).map OutBlock.questions).flatten =
      keepFirst ((mcq_list.map MCQBlock.questions).flatten) := by
  rw [deduplicate_mcqs, dedupBlocks_join, keepFirstFrom_eq_keepFirst_filter]
  congr 1
  apply List.filter_eq_self.mpr
  intro a _
  simp

/-- C8: the recorded last-call times of any two consecutive gated calls are
at least `RATE_LIMIT_DELAY = 2.5` apart, and a caller arriving sooner than
the interval after the recorded previous call time sleeps for exactly the
remaining difference before updating the shared last-call time. -/
theorem C8_rate_limiter_spacing (last t : ℚ) (ts : List ℚ)
    (h : t - last < RATE_LIMIT_DELAY) :
    (rate_limited_delay last t).1 = RATE_LIMIT_DELAY - (t - last) ∧
    (rate_limited_delay last t).2 = t + (RATE_LIMIT_DELAY - (t - last)) ∧
    List.Chain' (fun a b => a + RATE_LIMIT_DELAY ≤ b)
      (last :: throttleTimes last (t :: ts)) := by
  refine ⟨?_, ?_, throttleTimes_chain last (t :: ts)⟩ <;>
    · rw [rate_limited_delay]
      dsimp only
      rw [if_pos h]

theorem C8_rate_limiter_spacing_witness :
    ((1 : ℚ) - 0 < RATE_LIMIT_DELAY) ∧
    ((rate_limited_delay 0 1).1 = RATE_LIMIT_DELAY - (1 - 0) ∧
     (rate_limited_delay 0 1).2 = 1 + (RATE_LIMIT_DELAY - (1 - 0)) ∧
     List.Chain' (fun a b => a + RATE_LIMIT_DELAY ≤ b)
       (0 :: throttleTimes 0 [1, 2, 10])) :=
  ⟨by norm_num [RATE_LIMIT_DELAY],
    C8_rate_limiter_spacing 0 1 [2, 10] (by norm_num [RATE_LIMIT_DELAY])⟩

/-! ## Persistence and restart (src/modules/tasks.py lines 36-113)

`save_task_status` writes a reduced projection (no result payloads) of
every record; `load_task_status` (lines 60-84) reads it back and writes
each record into the global `task_status` with `results = []`.  At module
initialization (lines 110-113) the source runs

    load_task_status()
    task_status = \x7b\x7d
    running_tasks = \x7b\x7d

i.e. the load call executes BEFORE the global name `task_status` is first
bound.  Inside `load_task_status` the store writes therefore raise
NameError, which its `except` swallows (printing an error), and the module
then binds `task_status` to a fresh empty dict, discarding any restored
data either way.  The module-level store is modelled as
`Option Store` where `none` means the global name is still unbound. -/

structure ReducedRecord where
  status : Option String
  progress : Option ℕ
  total : ℕ
  error : Option String
  task_type : Option String
  results_count : ℕ
deriving DecidableEq

structure StoredRecord where
  status : Option String
  progress : Option ℕ
  total : ℕ
  error : Option String
  task_type : Option String
  results : List String
  results_count : ℕ
deriving DecidableEq

/-- Lines 69-81: one snapshot entry restored into the live store, with an
empty results array. -/
def restoreEntry (r : ReducedRecord) : StoredRecord :=
  { status := r.status, progress := r.progress, total := r.total,
    error := r.error, task_type := r.task_type,
    results := [], results_count := r.results_count }

/-- `load_task_status` acting on the module-level store (`none` = the
global `task_status` is not yet bound, in which case the store assignments
inside the loop raise NameError, caught by the function's `except`,
leaving the name unbound). -/
def load_task_status (task_status : Option (List (String × StoredRecord)))
    (snapshot : List (String × ReducedRecord)) :
    Option (List (String × StoredRecord)) :=
  match task_status with
  | none => none
  | some st => some (st ++ snapshot.map (fun p => (p.1, restoreEntry p.2)))

/-- Module import sequence, lines 110-113: `load_task_status()` is called
first (while `task_status` is unbound), then `task_status` is bound to an
empty dict. -/
def moduleInit (snapshot : List (String × ReducedRecord)) :
    List (String × StoredRecord) :=
  let task_status_v0 : Option (List (String × StoredRecord)) := none
  let _task_status_v1 := load_task_status task_status_v0 snapshot
  let task_status_v2 : Option (List (String × StoredRecord)) := some []
  task_status_v2.getD []

/-- `get_all_tasks` (lines 86-108): one info row per store entry. -/
def get_all_tasks (task_status : List (String × StoredRecord)) :
    List (String × (String × ℕ × ℕ)) :=
  task_status.map (fun p =>
    (p.1, (p.2.status.getD "unknown", (p.2.progress.getD 0, p.2.total))))

def snapC2 : List (String × ReducedRecord) :=
  [("t1", { status := some "completed", progress := some 3, total := 3,
            error := none, task_type := some "explanation_generation",
            results_count := 3 })]

/-- C2 (code bug): after a restart following a snapshot write, listing
tasks shows NO task at all — the snapshot had one task, but the live store
is empty because `load_task_status()` runs before the `task_status` global
is bound (its writes die with a swallowed NameError) and the store is then
re-initialized to an empty dict. -/
theorem C2_restart_loses_snapshot :
    get_all_tasks (moduleInit snapC2) = [] ∧ snapC2.length = 1 := by
  decide

/-! ## PDF-to-MCQ pipeline
(src/modules/tasks.py lines 615-698, src/modules/q_generation_func.py)

`process_mcqs_task` extracts the text, chunks it with
`sliding_window_chunks(full_text, 1200, 600)`, reads `chunks[0]` for the
relevance gate (an IndexError when there is no chunk propagates to the
outer handler, whose message "list index out of range" does not mention
cancellation, so the record is replaced with a failed one), returns with
`status='error'` when the relevance check is negative (without removing
the `running_tasks` entry), and otherwise iterates over `chunks[:4]`,
checking the cancellation flag at each window boundary and then calling
`generate_mcqs_with_assistant(client, "dummy_assistant_id", task_id, \x7b\x7d,
chunk)`. -/

/-- Python exception values reaching the outer handler. -/
inductive PyErr where
  | typeError (m : String)
  | indexError (m : String)
  | nameError (m : String)
  | apiError (m : String)
deriving DecidableEq

def PyErr.msg : PyErr → String
  | typeError m => m
  | indexError m => m
  | nameError m => m
  | apiError m => m

/-- Word splitting of Python `str.split()` (no arguments): split on runs of
whitespace, dropping empty fragments.  `cur` accumulates the current word
in reverse. -/
def splitWsAux (cur : List Char) : List Char → List (List Char)
  | [] => if cur = [] then [] else [cur.reverse]
  | c :: cs =>
    if c.isWhitespace then
      if cur = [] then splitWsAux [] cs
      else cur.reverse :: splitWsAux [] cs
    else splitWsAux (c :: cur) cs

def pySplit (s : String) : List String :=
  (splitWsAux [] s.data).map String.mk

/-- Index sequence of `range(0, len(words) - window_size + 1, step_size)`
(subtraction in ℤ, so an empty range when there are fewer than
`window_size` words).  Python `range` requires a non-zero step; the
repository always calls with step 600. -/
def windowStarts (n window_size step_size : ℕ) : List ℕ :=
  if n < window_size then []
  else List.range' 0 ((n - window_size) / step_size + 1) step_size

/-- `sliding_window_chunks` (q_generation_func.py lines 19-21). -/
def sliding_window_chunks (text : String) (window_size step_size : ℕ) :
    List String :=
  let words := pySplit text
  (windowStarts words.length window_size step_size).map
    (fun i => String.intercalate " " ((words.drop i).take window_size))

/-- Python `str.strip()`: remove leading and trailing whitespace. -/
def pyStrip (s : List Char) : List Char :=
  ((s.dropWhile Char.isWhitespace).reverse.dropWhile Char.isWhitespace).reverse

/-- Python `str.upper()` on the ASCII range relevant to the "YES"/"NO"
comparison. -/
def pyUpper (s : List Char) : List Char := s.map Char.toUpper

/-- `is_clinically_relevant` (q_generation_func.py lines 211-250): strips
and upper-cases the model response and compares with "YES"; any API
exception makes it default to `true`. -/
def is_clinically_relevant (response : Except PyErr String) : Bool :=
  match response with
  | .ok answer => pyUpper (pyStrip answer.data) == "YES".data
  | .error _ => true

/-- Message of the TypeError raised by the call at tasks.py line 650. -/
def arityErrorMsg : String :=
  "generate_mcqs_with_assistant() takes from 2 to 4 positional arguments but 5 were given"

/-- The call at tasks.py line 650 passes five positional arguments to
`generate_mcqs_with_assistant`, whose signature
`(client, text, min_required=1, max_attempts=3)` accepts at most four, so
Python raises TypeError at the call, before the function body runs. -/
def callGenerateMcqs : Except PyErr (List MCQBlock) :=
  .error (.typeError
    arityErrorMsg)

/-- Body of `generate_mcqs_with_assistant` (q_generation_func.py lines
123-126), entered only if a call could bind its parameters: the first loop
iteration evaluates `task_id not in mcqs_running_tasks`, and both names
are undefined in the module, so the body raises NameError before any
generation attempt, and the retry/backoff loop of lines 128-209 is
unreachable. -/
def generate_mcqs_with_assistant_body : Except PyErr (List MCQBlock) :=
  .error (.nameError "NameError: name task_id is not defined")

def isPrefixChars : List Char → List Char → Bool
  | [], _ => true
  | _ :: _, [] => false
  | a :: as, b :: bs => a == b && isPrefixChars as bs

def containsSub (needle : List Char) : List Char → Bool
  | [] => isPrefixChars needle []
  | c :: cs => isPrefixChars needle (c :: cs) || containsSub needle cs

/-- The outer handler test `"cancelled" in str(e).lower()` (lower-casing
done character-wise). -/
def strContainsCancelled (m : String) : Bool :=
  containsSub "cancelled".data (m.data.map Char.toLower)

/-- Environment of one pipeline run: the extracted text, the relevance
model response, the cancellation flag as read at window boundaries, and
the storage URL the uploader would return. -/
structure MCQEnv where
  fullText : String
  relevanceResponse : Except PyErr String
  cancelled : Bool
  uploadUrl : String

structure MCQRecord where
  status : String
  progress : Option String
  download_url : Option String
  error : Option String
deriving DecidableEq

/-- Result of one pipeline run: the final record, whether the task is
still registered in `running_tasks`, the accumulated `all_mcqs`, and
whether the upload was reached. -/
structure MCQRun where
  record : MCQRecord
  running : Bool
  generated : List MCQBlock
  uploaded : Bool
deriving DecidableEq

inductive LoopOut where
  | cancelledOut
  | raised (e : PyErr)
  | done (mcqs : List MCQBlock)
deriving DecidableEq

/-- The window loop of lines 637-651: at each window boundary check the
cancellation flag, then call the MCQ generation (which raises, see
`callGenerateMcqs`); a successful call would extend `all_mcqs`. -/
def mcqLoop (cancelled : Bool) (acc : List MCQBlock) : List String → LoopOut
  | [] => .done acc
  | _chunk :: rest =>
    if cancelled then .cancelledOut
    else
      match callGenerateMcqs with
      | .error e => .raised e
      | .ok mcqs => mcqLoop cancelled (acc ++ mcqs) rest

def process_mcqs_task (env : MCQEnv) : MCQRun :=
  match sliding_window_chunks env.fullText 1200 600 with
  | [] =>
    { record := { status := "failed", progress := none, download_url := none,
                  error := some "list index out of range" },
      running := false, generated := [], uploaded := false }
  | c0 :: restChunks =>
    if is_clinically_relevant env.relevanceResponse then
      match mcqLoop env.cancelled [] ((c0 :: restChunks).take 4) with
      | .cancelledOut =>
        { record := { status := "cancelled",
                      progress := some "Extracting text...",
                      download_url := none,
                      error := some "Task was cancelled." },
          running := false, generated := [], uploaded := false }
      | .raised e =>
        if strContainsCancelled e.msg then
          { record := { status := "cancelled", progress := none,
                        download_url := none, error := some e.msg },
            running := false, generated := [], uploaded := false }
        else
          { record := { status := "failed", progress := none,
                        download_url := none, error := some e.msg },
            running := false, generated := [], uploaded := false }
      | .done mcqs =>
        let _final_mcqs := deduplicate_mcqs mcqs
        { record := { status := "completed",
                      progress := some "Generation complete.",
                      download_url := some env.uploadUrl, error := none },
          running := false, generated := mcqs, uploaded := true }
    else
      { record := { status := "error", progress := some "Extracting text...",
                    download_url := none,
                    error := some "PDF is not clinically relevant" },
        running := true, generated := [], uploaded := false }

/-- Single-space joining of words at the character level, used to build a
concrete document with exactly 1200 words. -/
def sepJoin : List (List Char) → List Char
  | [] => []
  | [w] => w
  | w :: ws => w ++ ' ' :: sepJoin ws

lemma splitWs_sepJoin_replicate (n : ℕ) :
    splitWsAux [] (sepJoin (List.replicate n ['a'])) = List.replicate n ['a'] := by
  have hstep : ∀ rest : List Char,
      splitWsAux [] ('a' :: ' ' :: rest) = ['a'] :: splitWsAux [] rest :=
    fun _ => rfl
  induction n with
  | zero => rfl
  | succ m ih =>
    cases m with
    | zero => rfl
    | succ k =>
      have h2 : List.replicate (k + 1 + 1) ['a']
          = ['a'] :: List.replicate (k + 1) ['a'] := rfl
      have h3 : List.replicate (k + 1) ['a']
          = ['a'] :: List.replicate k ['a'] := rfl
      have hsep : sepJoin (['a'] :: ['a'] :: List.replicate k ['a'])
          = 'a' :: ' ' :: sepJoin (['a'] :: List.replicate k ['a']) := rfl
      rw [h2, h3, hsep, hstep, ← h3, ih]

/-- A concrete extracted text of exactly 1200 one-letter words. -/
def bigText : String := String.mk (sepJoin (List.replicate 1200 ['a']))

lemma pySplit_bigText : pySplit bigText = List.replicate 1200 "a" := by
  rw [pySplit, bigText]
  have hdata : (String.mk (sepJoin (List.replicate 1200 ['a']))).data
      = sepJoin (List.replicate 1200 ['a']) := rfl
  rw [hdata, splitWs_sepJoin_replicate, List.map_replicate]

lemma chunks_bigText : sliding_window_chunks bigText 1200 600
    = [String.intercalate " " (List.replicate 1200 "a")] := by
  rw [sliding_window_chunks]
  rw [pySplit_bigText, List.length_replicate]
  have hws : windowStarts 1200 1200 600 = [0] := by
    rw [windowStarts]
    norm_num
  rw [hws, List.map_cons, List.map_nil, List.drop_zero, List.take_replicate]
  norm_num

/-- The pipeline when chunking produces no window: `chunks[0]` raises
IndexError, the outer handler replaces the record with a failed one. -/
lemma process_mcqs_task_no_chunks (env : MCQEnv)
    (hch : sliding_window_chunks env.fullText 1200 600 = []) :
    process_mcqs_task env =
      { record := { status := "failed", progress := none, download_url := none,
                    error := some "list index out of range" },
        running := false, generated := [], uploaded := false } := by
  rw [process_mcqs_task, hch]

/-- The pipeline when the first window exists and the relevance check is
negative: lines 630-634 set `status='error'` and return without removing
the `running_tasks` entry; no window is processed and no upload happens. -/
lemma process_mcqs_task_relevance_false (env : MCQEnv) (c0 : String)
    (cs : List String)
    (hch : sliding_window_chunks env.fullText 1200 600 = c0 :: cs)
    (hrel : is_clinically_relevant env.relevanceResponse = false) :
    process_mcqs_task env =
      { record := { status := "error", progress := some "Extracting text...",
                    download_url := none,
                    error := some "PDF is not clinically relevant" },
        running := true, generated := [], uploaded := false } := by
  rw [process_mcqs_task, hch]
  dsimp only
  rw [hrel]
  simp only [Bool.false_eq_true, if_false]

/-- The pipeline when the first window exists, the relevance check is
positive and the task is not cancelled: the first window's generation call
raises TypeError (see `callGenerateMcqs`) and the outer handler replaces
the record with a failed one. -/
lemma process_mcqs_task_first_window_raises (env : MCQEnv) (c0 : String)
    (cs : List String)
    (hch : sliding_window_chunks env.fullText 1200 600 = c0 :: cs)
    (hrel : is_clinically_relevant env.relevanceResponse = true)
    (hcan : env.cancelled = false) :
    process_mcqs_task env =
      { record := { status := "failed", progress := none, download_url := none,
                    error := some arityErrorMsg },
        running := false, generated := [], uploaded := false } := by
  have hloop : ∀ (acc : List MCQBlock) (c : String) (rest : List String),
      mcqLoop false acc (c :: rest) = LoopOut.raised (PyErr.typeError
        arityErrorMsg) :=
    fun _ _ _ => rfl
  have htake : (c0 :: cs).take 4 = c0 :: cs.take 3 := rfl
  rw [process_mcqs_task, hch]
  dsimp only
  rw [hrel]
  simp only [if_true]
  rw [hcan, htake, hloop]
  dsimp only [PyErr.msg]
  have hnc : strContainsCancelled
      arityErrorMsg
      = false := by decide
  rw [hnc]
  simp only [Bool.false_eq_true, if_false]

def envC6 : MCQEnv :=
  { fullText := bigText, relevanceResponse := Except.ok "NO",
    cancelled := false, uploadUrl := "" }

/-- C6 counterexample: on a pipeline run over a 1200-word clinically
irrelevant document (model answer "NO" for the first window), the task's
status becomes the string "error", not the terminal value "failed" that
the claim asserts. -/
theorem C6_relevance_counterexample :
    (process_mcqs_task envC6).record.status = "error" ∧
    ¬ (process_mcqs_task envC6).record.status = "failed" := by
  have h := process_mcqs_task_relevance_false envC6 _ _ chunks_bigText (by decide)
  rw [h]
  exact ⟨rfl, by decide⟩

/-- C6 (amended): when the relevance check on the first window returns
false, the task immediately reaches the status string "error" (an
undocumented terminal marker, not the state-machine value "failed") with
the explanatory error message, zero generated items, no further windows
processed and no export or upload attempted; the task also stays
registered in `running_tasks`. -/
theorem C6_relevance_gate_amended (env : MCQEnv)
    (hrel : is_clinically_relevant env.relevanceResponse = false)
    (hch : sliding_window_chunks env.fullText 1200 600 ≠ []) :
    (process_mcqs_task env).record.status = "error" ∧
    (process_mcqs_task env).record.error
      = some "PDF is not clinically relevant" ∧
    (process_mcqs_task env).generated = [] ∧
    (process_mcqs_task env).uploaded = false ∧
    (process_mcqs_task env).running = true := by
  obtain ⟨c0, cs, h⟩ := List.exists_cons_of_ne_nil hch
  rw [process_mcqs_task_relevance_false env c0 cs h hrel]
  exact ⟨rfl, rfl, rfl, rfl, rfl⟩

theorem C6_relevance_gate_amended_witness :
    (is_clinically_relevant envC6.relevanceResponse = false ∧
     sliding_window_chunks envC6.fullText 1200 600 ≠ []) ∧
    ((process_mcqs_task envC6).record.status = "error" ∧
     (process_mcqs_task envC6).record.error
       = some "PDF is not clinically relevant" ∧
     (process_mcqs_task envC6).generated = [] ∧
     (process_mcqs_task envC6).uploaded = false ∧
     (process_mcqs_task envC6).running = true) :=
  ⟨⟨by decide,
     by show sliding_window_chunks bigText 1200 600 ≠ []
        rw [chunks_bigText]
        exact List.cons_ne_nil _ _⟩,
    C6_relevance_gate_amended envC6 (by decide)
      (by show sliding_window_chunks bigText 1200 600 ≠ []
          rw [chunks_bigText]
          exact List.cons_ne_nil _ _)⟩

def envC5 : MCQEnv :=
  { fullText := bigText, relevanceResponse := Except.ok "YES",
    cancelled := false, uploadUrl := "" }

/-- C5 (code bug): a pipeline run over a 1200-word clinically relevant
document, never cancelled, reaches the terminal status "failed" at the
very first window with the TypeError raised by the mismatched call to the
structured-item generator — the bounded retry/backoff loop the claim
describes is unreachable (and even a call with matching arity would die
with NameError on the undefined `task_id` / `mcqs_running_tasks`, see
`generate_mcqs_with_assistant_body`).  No window contributes items and no
upload is attempted, but not in the graceful way the claim states: the
whole task fails. -/
theorem C5_generation_call_raises :
    (process_mcqs_task envC5).record.status = "failed" ∧
    (process_mcqs_task envC5).record.error = some arityErrorMsg ∧
    (process_mcqs_task envC5).generated = [] ∧
    (process_mcqs_task envC5).uploaded = false ∧
    generate_mcqs_with_assistant_body
      = Except.error (PyErr.nameError "NameError: name task_id is not defined") := by
  have h := process_mcqs_task_first_window_raises envC5 _ _ chunks_bigText
    (by decide) rfl
  rw [h]
  exact ⟨rfl, rfl, rfl, rfl, rfl⟩

lemma windowStarts_mem_le (n w s i : ℕ) (_hs : 0 < s)
    (hi : i ∈ windowStarts n w s) : i + w ≤ n := by
  rw [windowStarts] at hi
  split at hi
  · simp at hi
  · rename_i h
    push_neg at h
    rw [List.mem_range'] at hi
    obtain ⟨k, hk, rfl⟩ := hi
    have hk' : k ≤ (n - w) / s := Nat.lt_succ_iff.mp hk
    have h1 : s * k ≤ s * ((n - w) / s) := Nat.mul_le_mul_left s hk'
    have h2 : (n - w) / s * s ≤ n - w := Nat.div_mul_le_self (n - w) s
    have h3 : s * ((n - w) / s) = (n - w) / s * s := Nat.mul_comm _ _
    omega

lemma windowStarts_getD (n w s j : ℕ)
    (hj : j < (windowStarts n w s).length) :
    (windowStarts n w s).getD j 0 = s * j := by
  rw [windowStarts] at hj ⊢
  split at hj
  · simp at hj
  · rename_i h
    rw [if_neg h, getD_eq_get _ _ hj, List.get_eq_getElem,
      List.getElem_range']
    simp

lemma take_drop_shift {α : Type} (l : List α) (i w s : ℕ) :
    ((l.drop i).take w).drop s = (l.drop (i + s)).take (w - s) := by
  rw [List.drop_take, List.drop_drop]

/-- C10: the sliding-window chunking emits only full-size windows —
(a) a text with fewer words than `window_size` yields the empty chunk
sequence; (b) every emitted chunk is the join of a full `window_size`-word
slice; (c) with `step_size < window_size` consecutive windows overlap in
their last/first `window_size - step_size` words; and (d) starting the
pipeline on a document with fewer than 1200 words reaches the terminal
status "failed" (the first-window read has no window to inspect) instead
of processing the document. -/
theorem C10_sliding_window_chunks (text : String) (w s : ℕ) (env : MCQEnv)
    (hs : 0 < s) (hsw : s < w)
    (henv : (pySplit env.fullText).length < 1200) :
    ((pySplit text).length < w → sliding_window_chunks text w s = []) ∧
    (∀ c ∈ sliding_window_chunks text w s, ∃ i,
      i + w ≤ (pySplit text).length ∧
      c = String.intercalate " " (((pySplit text).drop i).take w) ∧
      (((pySplit text).drop i).take w).length = w) ∧
    (∀ k, k + 1 < (windowStarts (pySplit text).length w s).length →
      (windowStarts (pySplit text).length w s).getD (k + 1) 0
        = (windowStarts (pySplit text).length w s).getD k 0 + s ∧
      ((((pySplit text).drop
          ((windowStarts (pySplit text).length w s).getD (k + 1) 0)).take w).take (w - s)
        = (((pySplit text).drop
            ((windowStarts (pySplit text).length w s).getD k 0)).take w).drop s)) ∧
    ((process_mcqs_task env).record.status = "failed" ∧
     (process_mcqs_task env).record.error = some "list index out of range" ∧
     (process_mcqs_task env).generated = [] ∧
     (process_mcqs_task env).uploaded = false) := by
  refine ⟨?_, ?_, ?_, ?_⟩
  · intro h
    rw [sliding_window_chunks, windowStarts, if_pos h, List.map_nil]
  · intro c hc
    rw [sliding_window_chunks] at hc
    obtain ⟨i, hi, rfl⟩ := List.mem_map.mp hc
    refine ⟨i, windowStarts_mem_le _ _ _ _ hs hi, rfl, ?_⟩
    have hle := windowStarts_mem_le _ _ _ _ hs hi
    rw [List.length_take, List.length_drop]
    omega
  · intro k hk
    have hk0 : k < (windowStarts (pySplit text).length w s).length := by omega
    have h1 := windowStarts_getD (pySplit text).length w s (k + 1) hk
    have h0 := windowStarts_getD (pySplit text).length w s k hk0
    constructor
    · rw [h1, h0]
      ring
    · rw [h1, h0, take_drop_shift]
      rw [List.take_take]
      have hmin : min (w - s) w = w - s := by omega
      rw [hmin]
      have hmul : s * (k + 1) = s * k + s := by ring
      rw [hmul]
  · have hch : sliding_window_chunks env.fullText 1200 600 = [] := by
      rw [sliding_window_chunks, windowStarts, if_pos henv, List.map_nil]
    rw [process_mcqs_task_no_chunks env hch]
    exact ⟨rfl, rfl, rfl, rfl⟩

def envC10 : MCQEnv :=
  { fullText := "hi", relevanceResponse := Except.ok "YES",
    cancelled := false, uploadUrl := "" }

theorem C10_sliding_window_chunks_witness :
    (0 < 2 ∧ 2 < 3 ∧ (pySplit envC10.fullText).length < 1200) ∧
    (((pySplit "a b c d e").length < 3 →
        sliding_window_chunks "a b c d e" 3 2 = []) ∧
     (∀ c ∈ sliding_window_chunks "a b c d e" 3 2, ∃ i,
        i + 3 ≤ (pySplit "a b c d e").length ∧
        c = String.intercalate " " (((pySplit "a b c d e").drop i).take 3) ∧
        (((pySplit "a b c d e").drop i).take 3).length = 3) ∧
     (∀ k, k + 1 < (windowStarts (pySplit "a b c d e").length 3 2).length →
        (windowStarts (pySplit "a b c d e").length 3 2).getD (k + 1) 0
          = (windowStarts (pySplit "a b c d e").length 3 2).getD k 0 + 2 ∧
        ((((pySplit "a b c d e").drop
            ((windowStarts (pySplit "a b c d e").length 3 2).getD (k + 1) 0)).take 3).take (3 - 2)
          = (((pySplit "a b c d e").drop
              ((windowStarts (pySplit "a b c d e").length 3 2).getD k 0)).take 3).drop 2)) ∧
     ((process_mcqs_task envC10).record.status = "failed" ∧
      (process_mcqs_task envC10).record.error = some "list index out of range" ∧
      (process_mcqs_task envC10).generated = [] ∧
      (process_mcqs_task envC10).uploaded = false)) :=
  ⟨⟨by decide, by decide, by decide⟩,
    C10_sliding_window_chunks "a b c d e" 3 2 envC10 (by decide) (by decide)
      (by decide)⟩

/-! ## Single-question explanation task (src/modules/tasks.py lines 148-264)

`start_single_question_explanation_task` creates the record
`status="queued"`, `progress=0`, `results=[]`, `error=None` (no `total`
key; absent keys read as 0) and registers the task.
`process_single_question_explanation` sets `status="processing"`, then:
raises "Question with ID ... not found" / "No options found for this
question" / "No correct answer found for this question" on the failed
lookups (the outer handler at lines 253-264 REPLACES the record with a
two-key failed or cancelled one and unregisters); checks the cancellation
flag before the AI call (lines 199-203, mutating the record to cancelled
and unregistering); runs the explanation generation, whose exception lands
in the outer handler (cancelled when the message mentions cancellation,
failed otherwise); checks the flag again after the AI call (lines
216-220); raises "Database update failed: ..." on a DB error; and finally
appends the single result entry, sets `progress=1` and `status="completed"`
and unregisters.  All record replacements happen before the single append
at line 246, which only lines 247-251 (plain assignments) follow. -/

structure SingleEnv where
  questionId : ℕ
  questionFound : Bool
  optionsFound : Bool
  correctFound : Bool
  cancelBeforeAI : Bool
  aiResult : Except PyErr String
  cancelAfterAI : Bool
  dbError : Option String

/-- All states of the task's record (paired with `running_tasks`
membership) over one run of `process_single_question_explanation`. -/
def singleStates (env : SingleEnv) : List (Record × Bool) :=
  let r1 := { initRecord with status := "processing" }
  (initRecord, true) :: (r1, true) ::
  (if env.questionFound = false then
     [(failRec ("Question with ID " ++ toString env.questionId
         ++ " not found"), false)]
   else if env.optionsFound = false then
     [(failRec "No options found for this question", false)]
   else if env.correctFound = false then
     [(failRec "No correct answer found for this question", false)]
   else if env.cancelBeforeAI then
     [({ r1 with
          status := "cancelled",
          error := some "Task was cancelled." }, false)]
   else
     match env.aiResult with
     | .error e =>
       if strContainsCancelled e.msg then
         [({ status := "cancelled", progress := 0, total := 0, results := [],
             error := some e.msg }, false)]
       else [(failRec e.msg, false)]
     | .ok explanation =>
       if env.cancelAfterAI then
         [({ r1 with
              status := "cancelled",
              error := some "Task was cancelled after explanation generation." },
           false)]
       else
         match env.dbError with
         | some m => [(failRec ("Database update failed: " ++ m), false)]
         | none =>
           let rA := { r1 with
                        results := [Entry.result 1 env.questionId explanation],
                        progress := 1 }
           [(rA, true), ({ rA with status := "completed" }, false)])

lemma singleStates_chain (env : SingleEnv) :
    List.Chain' resultsExtend (singleStates env) := by
  rw [singleStates]
  dsimp only
  apply List.chain'_cons.mpr
  refine ⟨⟨[], rfl⟩, ?_⟩
  split
  · exact List.chain'_cons.mpr ⟨⟨[], rfl⟩, List.chain'_singleton _⟩
  · split
    · exact List.chain'_cons.mpr ⟨⟨[], rfl⟩, List.chain'_singleton _⟩
    · split
      · exact List.chain'_cons.mpr ⟨⟨[], rfl⟩, List.chain'_singleton _⟩
      · split
        · exact List.chain'_cons.mpr ⟨⟨[], rfl⟩, List.chain'_singleton _⟩
        · split
          · split
            · exact List.chain'_cons.mpr ⟨⟨[], rfl⟩, List.chain'_singleton _⟩
            · exact List.chain'_cons.mpr ⟨⟨[], rfl⟩, List.chain'_singleton _⟩
          · split
            · exact List.chain'_cons.mpr ⟨⟨[], rfl⟩, List.chain'_singleton _⟩
            · split
              · exact List.chain'_cons.mpr ⟨⟨[], rfl⟩, List.chain'_singleton _⟩
              · refine List.chain'_cons.mpr ⟨⟨_, rfl⟩, ?_⟩
                exact List.chain'_cons.mpr ⟨⟨[], rfl⟩, List.chain'_singleton _⟩

/-- C7: while a task is running, entries appended to its `results` sequence
are never removed or modified afterwards: for both job runners that
maintain a `results` sequence — the fan-out explanation task and the
single-question explanation task — at any later state of the task's record
(including across the terminal transition) the earlier `results` sequence
is an unchanged prefix of the later one. -/
theorem C7_results_append_only (env : FanoutEnv) (senv : SingleEnv)
    (i j : ℕ) (hij : i ≤ j) :
    (j < (fanoutStates env).length →
      ∃ t, ((fanoutStates env).getD j (initRecord, true)).1.results
          = ((fanoutStates env).getD i (initRecord, true)).1.results ++ t) ∧
    (j < (singleStates senv).length →
      ∃ t, ((singleStates senv).getD j (initRecord, true)).1.results
          = ((singleStates senv).getD i (initRecord, true)).1.results ++ t) :=
  ⟨fun hj => chain_resultsExtend_getD _ (fanoutStates_chain env) i j hij hj,
   fun hj => chain_resultsExtend_getD _ (singleStates_chain senv) i j hij hj⟩

def envC7single : SingleEnv :=
  { questionId := 5, questionFound := true, optionsFound := true,
    correctFound := true, cancelBeforeAI := false,
    aiResult := Except.ok "expl", cancelAfterAI := false, dbError := none }

theorem C7_results_append_only_witness :
    (1 ≤ 3 ∧ 3 < (fanoutStates envC7).length
       ∧ 3 < (singleStates envC7single).length) ∧
    ((3 < (fanoutStates envC7).length →
      ∃ t, ((fanoutStates envC7).getD 3 (initRecord, true)).1.results
          = ((fanoutStates envC7).getD 1 (initRecord, true)).1.results ++ t) ∧
     (3 < (singleStates envC7single).length →
      ∃ t, ((singleStates envC7single).getD 3 (initRecord, true)).1.results
          = ((singleStates envC7single).getD 1 (initRecord, true)).1.results ++ t)) :=
  ⟨⟨by decide, by decide, by decide⟩,
    C7_results_append_only envC7 envC7single 1 3 (by decide)⟩
